import Mathlib

/-!
Shallow embedding of the conference-moderator orchestration core
(`server/conference/state_machine.py`, `server/conference/timer.py`,
`server/conference/agenda_manager.py`, `server/models/state.py`,
`server/models/agenda.py`, `server/realtime/events.py`,
`server/ws/handler.py`) and proofs about its claimed properties.

Python floats are modelled by `ℚ`, Python ints by `Int`/`Nat`, and the
pydantic validation declared on the agenda models by explicit
`Except`-valued validators.
-/

namespace LiveModerator

/-- `ConferenceState` enum from `server/models/state.py`. -/
inductive ConferenceState where
  | idle
  | opening
  | introducing_speaker
  | speaker_active
  | interacting
  | time_warning
  | thanking_speaker
  | transitioning
  | break_announcement
  | break_active
  | break_ending
  | closing
  | ended
  deriving DecidableEq, Repr

/-- `SessionType` enum from `server/models/agenda.py`. -/
inductive SessionType where
  | opening
  | keynote
  | talk
  | panel
  | break_
  | qa
  | closing
  deriving DecidableEq, Repr

/-- `SpeakerInfo` model from `server/models/agenda.py`. -/
structure SpeakerInfo where
  name : String
  title : String
  organization : String
  talk_title : String
  bio : Option String := none
  pronunciation_hint : Option String := none
  deriving DecidableEq, Repr

/-- `ConferenceSession` model from `server/models/agenda.py`
(validated form: `duration_minutes` carries the declared `gt=0` only
through the validator below). -/
structure ConferenceSession where
  id : String
  type : SessionType
  title : String
  duration_minutes : Int
  description : Option String := none
  speaker : Option SpeakerInfo := none
  panelists : Option (List SpeakerInfo) := none
  notes : Option String := none
  deriving DecidableEq, Repr

/-- `ConferenceAgenda` model from `server/models/agenda.py`. -/
structure ConferenceAgenda where
  id : String
  title : String
  date : String
  venue : String
  language : String := "tr"
  moderator_voice : String := "coral"
  sessions : List ConferenceSession
  deriving DecidableEq, Repr

/-- `ConferenceContext` dataclass from `server/models/state.py`.
Monotonic-clock readings and elapsed seconds (Python floats) are `ℚ`. -/
structure ConferenceContext where
  agenda : Option ConferenceAgenda := none
  current_session_index : Nat := 0
  session_start_time : Option ℚ := none
  elapsed_seconds : ℚ := 0
  time_warning_issued : Bool := false
  conference_start_time : Option ℚ := none
  is_paused : Bool := false
  deriving DecidableEq, Repr

/-- `ConferenceContext.current_session` property. -/
def ConferenceContext.current_session (c : ConferenceContext) :
    Option ConferenceSession :=
  match c.agenda with
  | some a => a.sessions.get? c.current_session_index
  | none => none

/-- `ConferenceContext.next_session` property. -/
def ConferenceContext.next_session (c : ConferenceContext) :
    Option ConferenceSession :=
  match c.agenda with
  | some a => a.sessions.get? (c.current_session_index + 1)
  | none => none

/-- `SILENT_STATES` set from `server/models/state.py` (agent stays
silent, `auto_respond = False`). -/
def SILENT_STATES : List ConferenceState :=
  [.idle, .speaker_active, .break_active, .ended]

/-- The state machine model: current phase plus its mutable context
(`ConferenceStateMachine` from `server/conference/state_machine.py`). -/
structure SM where
  state : ConferenceState
  context : ConferenceContext
  deriving DecidableEq, Repr

/-- `ConferenceStateMachine._route_transition`: when in TRANSITIONING,
decide where to go next based on the agenda.  If no next session
exists, go straight to closing (without touching the context);
otherwise advance the index, reset elapsed seconds and the warning
flag, and dispatch on the new current session's type. -/
def routeTransition (m : SM) : SM :=
  if m.state ≠ ConferenceState.transitioning then m
  else
    match m.context.next_session with
    | none => { m with state := .closing }
    | some _ =>
      let c := { m.context with
                 current_session_index := m.context.current_session_index + 1,
                 elapsed_seconds := 0,
                 time_warning_issued := false }
      match c.current_session with
      | none => { state := .closing, context := c }
      | some s =>
        match s.type with
        | .break_ => { state := .break_announcement, context := c }
        | .closing => { state := .closing, context := c }
        | .keynote => { state := .introducing_speaker, context := c }
        | .talk => { state := .introducing_speaker, context := c }
        | .panel => { state := .introducing_speaker, context := c }
        | .qa => { state := .introducing_speaker, context := c }
        | .opening => { state := .introducing_speaker, context := c }

/-- `ConferenceStateMachine.handle_start`: `start_conference` trigger,
valid only from idle (the FSM library raises before any mutation from
any other phase, so the machine is left unchanged there). -/
def handleStart (m : SM) : SM :=
  if m.state = ConferenceState.idle then { m with state := .opening } else m

/-- `ConferenceStateMachine.handle_response_done`: phase-dependent
advance fired when the AI model finishes speaking. -/
def handleResponseDone (m : SM) : SM :=
  match m.state with
  | .opening => routeTransition { m with state := .transitioning }
  | .introducing_speaker => { m with state := .speaker_active }
  | .time_warning => { m with state := .speaker_active }
  | .thanking_speaker => routeTransition { m with state := .transitioning }
  | .break_announcement => { m with state := .break_active }
  | .break_ending =>
      let c := { m.context with
                 current_session_index := m.context.current_session_index + 1,
                 elapsed_seconds := 0,
                 time_warning_issued := false }
      routeTransition { state := .transitioning, context := c }
  | .closing => { m with state := .ended }
  | _ => m

/-- `ConferenceStateMachine.handle_advance_session`: called by the
function-calling tool; the `reason` argument is accepted but never read
by the body. -/
def handleAdvanceSession (_reason : String) (m : SM) : SM :=
  match m.state with
  | .speaker_active => { m with state := .thanking_speaker }
  | .interacting => { m with state := .thanking_speaker }
  | .time_warning => { m with state := .thanking_speaker }
  | .opening => routeTransition { m with state := .transitioning }
  | _ => m

/-- `ConferenceStateMachine.handle_operator_next`: fires the
`operator_next` trigger of the transition table; an invalid source
phase raises inside the FSM library and is caught and logged, leaving
the machine unchanged.  Note: the body never calls
`_route_transition`. -/
def handleOperatorNext (m : SM) : SM :=
  match m.state with
  | .speaker_active => { m with state := .thanking_speaker }
  | .interacting => { m with state := .thanking_speaker }
  | .time_warning => { m with state := .thanking_speaker }
  | .break_active => { m with state := .transitioning }
  | .opening => { m with state := .transitioning }
  | _ => m

/-- `ConferenceStateMachine.handle_time_warning`: timer-triggered; only
acts from speaker_active or interacting, where it sets the
warning-issued flag and moves to time_warning. -/
def handleTimeWarning (m : SM) : SM :=
  match m.state with
  | .speaker_active =>
      { state := .time_warning,
        context := { m.context with time_warning_issued := true } }
  | .interacting =>
      { state := .time_warning,
        context := { m.context with time_warning_issued := true } }
  | _ => m

/-- `ConferenceStateMachine.handle_time_expired`: timer expiry; from
the speaker phases it fires `speaker_finished`, from break_active it
fires `break_ending_soon`. -/
def handleTimeExpired (m : SM) : SM :=
  match m.state with
  | .speaker_active => { m with state := .thanking_speaker }
  | .interacting => { m with state := .thanking_speaker }
  | .time_warning => { m with state := .thanking_speaker }
  | .break_active => { m with state := .break_ending }
  | _ => m

/-- `ConferenceStateMachine.handle_toggle_interact`: toggles between
speaker_active and interacting. -/
def handleToggleInteract (m : SM) : SM :=
  match m.state with
  | .speaker_active => { m with state := .interacting }
  | .interacting => { m with state := .speaker_active }
  | _ => m

/-- The seven public triggers of the state machine. -/
inductive Trigger where
  | start
  | responseDone
  | advanceSession (reason : String)
  | operatorNext
  | timeWarning
  | timeExpired
  | toggleInteract

/-- Dispatch a public trigger to its handler. -/
def applyTrigger : Trigger → SM → SM
  | .start => handleStart
  | .responseDone => handleResponseDone
  | .advanceSession r => handleAdvanceSession r
  | .operatorNext => handleOperatorNext
  | .timeWarning => handleTimeWarning
  | .timeExpired => handleTimeExpired
  | .toggleInteract => handleToggleInteract

/-- The source phases from which each public trigger has an entry in
the transition table / handler guards (`TRANSITIONS` plus the guard
conditions of the `handle_*` methods in
`server/conference/state_machine.py`). -/
def triggerEnabled : Trigger → ConferenceState → Bool
  | .start, p => p = ConferenceState.idle
  | .responseDone, p =>
      p ∈ [ConferenceState.opening, .introducing_speaker, .time_warning,
           .thanking_speaker, .break_announcement, .break_ending, .closing]
  | .advanceSession _, p =>
      p ∈ [ConferenceState.speaker_active, .interacting, .time_warning,
           .opening]
  | .operatorNext, p =>
      p ∈ [ConferenceState.speaker_active, .interacting, .time_warning,
           .break_active, .opening]
  | .timeWarning, p => p ∈ [ConferenceState.speaker_active, .interacting]
  | .timeExpired, p =>
      p ∈ [ConferenceState.speaker_active, .interacting, .time_warning,
           .break_active]
  | .toggleInteract, p => p ∈ [ConferenceState.speaker_active, .interacting]

/-- `RealtimeEventHandler._on_turn_complete` from
`server/realtime/events.py`: on a provider turn-complete event, do not
advance the state machine when the current phase is silent; otherwise
invoke `handle_response_done`.  The boolean records whether
`handle_response_done` was invoked. -/
def onTurnComplete (m : SM) : SM × Bool :=
  if m.state ∈ SILENT_STATES then (m, false)
  else (handleResponseDone m, true)

/-- Timer-side state of `SessionTimer` from
`server/conference/timer.py`: whether the `_run` task is alive, the
`_paused` flag, pause accounting, and the `total_seconds` value the
`_run` loop captured at task start. -/
structure TimerState where
  running : Bool := false
  paused : Bool := false
  pause_accumulated : ℚ := 0
  pause_start : Option ℚ := none
  total_seconds : ℚ := 0
  deriving DecidableEq, Repr

/-- The per-connection system: the state machine plus its session timer
(as wired together in `server/ws/handler.py`). -/
structure Sys where
  sm : SM
  timer : TimerState
  deriving DecidableEq, Repr

/-- `SessionTimer.start`: cancel any running instance, clear pause
accounting, record the current monotonic time as session start, reset
elapsed seconds to 0, and launch `_run` (which immediately returns when
there is no current session, and otherwise captures
`duration_minutes * 60` as the loop's total). -/
def timerStart (now : ℚ) (sys : Sys) : Sys :=
  let c := { sys.sm.context with
             session_start_time := some now, elapsed_seconds := 0 }
  let m := { sys.sm with context := c }
  match c.current_session with
  | none =>
    { sm := m,
      timer := { running := false, paused := false, pause_accumulated := 0,
                 pause_start := none,
                 total_seconds := sys.timer.total_seconds } }
  | some s =>
    { sm := m,
      timer := { running := true, paused := false, pause_accumulated := 0,
                 pause_start := none,
                 total_seconds := (s.duration_minutes : ℚ) * 60 } }

/-- The states that need timing, from
`ConferenceHandler._on_state_change_timer` in `server/ws/handler.py`. -/
def timedStates : List ConferenceState :=
  [.speaker_active, .interacting, .time_warning, .break_active]

/-- `ConferenceHandler._on_state_change_timer`: the phase-change
fan-out that starts the timer on entering a timed state and stops it on
entering thanking_speaker, transitioning, or ended. -/
def timerFanout (now : ℚ) (sys : Sys) : Sys :=
  if sys.sm.state ∈ timedStates then timerStart now sys
  else if sys.sm.state ∈ [ConferenceState.thanking_speaker, .transitioning,
                          .ended] then
    { sys with timer := { sys.timer with running := false } }
  else sys

/-- System-level `handle_time_warning`: the FSM trigger followed by the
phase-change fan-out that its `_notify_state_change` call runs. -/
def sysHandleTimeWarning (now : ℚ) (sys : Sys) : Sys :=
  match sys.sm.state with
  | .speaker_active => timerFanout now ⟨handleTimeWarning sys.sm, sys.timer⟩
  | .interacting => timerFanout now ⟨handleTimeWarning sys.sm, sys.timer⟩
  | _ => sys

/-- System-level `handle_time_expired`: the FSM trigger followed by the
phase-change fan-out. -/
def sysHandleTimeExpired (now : ℚ) (sys : Sys) : Sys :=
  match sys.sm.state with
  | .speaker_active => timerFanout now ⟨handleTimeExpired sys.sm, sys.timer⟩
  | .interacting => timerFanout now ⟨handleTimeExpired sys.sm, sys.timer⟩
  | .time_warning => timerFanout now ⟨handleTimeExpired sys.sm, sys.timer⟩
  | .break_active => timerFanout now ⟨handleTimeExpired sys.sm, sys.timer⟩
  | _ => sys

/-- System-level `handle_toggle_interact`: the FSM trigger followed by
the phase-change fan-out. -/
def sysHandleToggleInteract (now : ℚ) (sys : Sys) : Sys :=
  match sys.sm.state with
  | .speaker_active =>
      timerFanout now ⟨handleToggleInteract sys.sm, sys.timer⟩
  | .interacting =>
      timerFanout now ⟨handleToggleInteract sys.sm, sys.timer⟩
  | _ => sys

/-- `Settings.time_warning_threshold` default from `server/config.py`. -/
def timeWarningThreshold : ℚ := 80 / 100

/-- Result of one iteration of the timer loop: the new system state
plus whether this tick emitted the time-warning and the time-expired
signal to the state machine. -/
structure TickResult where
  sys : Sys
  warned : Bool
  expired : Bool
  deriving DecidableEq, Repr

/-- One iteration of `SessionTimer._run` (after the one-second sleep),
executed at monotonic time `now`: skip when paused or when no session
start is recorded; otherwise write `elapsed = now - start - paused`,
compute remaining and progress, emit the time-warning signal when the
warning flag is unset, progress has reached the threshold, and time
remains; emit the time-expired signal and terminate the loop when no
time remains.  An iteration only happens while the task is alive
(`running`). -/
def sysTick (now : ℚ) (sys : Sys) : TickResult :=
  if !sys.timer.running || sys.timer.paused then ⟨sys, false, false⟩
  else
    match sys.sm.context.session_start_time with
    | none => ⟨sys, false, false⟩
    | some st =>
      let total := sys.timer.total_seconds
      let elapsed := now - st - sys.timer.pause_accumulated
      let sys1 : Sys :=
        { sys with sm := { sys.sm with context :=
            { sys.sm.context with elapsed_seconds := elapsed } } }
      let remaining := max 0 (total - elapsed)
      let progress := if 0 < total then min 1 (elapsed / total) else 1
      let warned : Bool :=
        !sys1.sm.context.time_warning_issued
          && decide (timeWarningThreshold ≤ progress)
          && decide (0 < remaining)
      let sys2 := if warned then sysHandleTimeWarning now sys1 else sys1
      if remaining ≤ 0 then
        let sys3 := sysHandleTimeExpired now sys2
        ⟨{ sys3 with timer := { sys3.timer with running := false } },
         warned, true⟩
      else ⟨sys2, warned, false⟩

/-! ### Agenda validation (`server/models/agenda.py` pydantic schema,
`server/conference/agenda_manager.py`) -/

/-- A validation failure, carrying the violating field's name
(modelling the `loc`/message of the pydantic `ValidationError` raised
by `ConferenceAgenda.model_validate`). -/
inductive ValErr where
  | missingField (field : String)
  | notGreaterThanZero (field : String)
  | tooShort (field : String)
  | invalidEnum (field : String)
  deriving DecidableEq, Repr

/-- Raw (unvalidated) speaker dictionary. -/
structure RawSpeaker where
  name : Option String := none
  title : Option String := none
  organization : Option String := none
  talk_title : Option String := none
  bio : Option String := none
  pronunciation_hint : Option String := none
  deriving DecidableEq, Repr

/-- Raw (unvalidated) session dictionary. -/
structure RawSession where
  id : Option String := none
  type : Option String := none
  title : Option String := none
  duration_minutes : Option Int := none
  description : Option String := none
  speaker : Option RawSpeaker := none
  panelists : Option (List RawSpeaker) := none
  notes : Option String := none
  deriving DecidableEq, Repr

/-- Raw (unvalidated) agenda dictionary. -/
structure RawAgenda where
  id : Option String := none
  title : Option String := none
  date : Option String := none
  venue : Option String := none
  language : Option String := none
  moderator_voice : Option String := none
  sessions : Option (List RawSession) := none
  deriving DecidableEq, Repr

/-- A required field: present or a missing-field error naming it. -/
def require (field : String) : Option α → Except ValErr α
  | some v => .ok v
  | none => .error (.missingField field)

/-- Parse the `SessionType` enum tag. -/
def parseSessionType : String → Except ValErr SessionType
  | "opening" => .ok .opening
  | "keynote" => .ok .keynote
  | "talk" => .ok .talk
  | "panel" => .ok .panel
  | "break" => .ok .break_
  | "qa" => .ok .qa
  | "closing" => .ok .closing
  | _ => .error (.invalidEnum "type")

/-- Validate a `SpeakerInfo` (required: name, title, organization,
talk_title). -/
def validateSpeaker (r : RawSpeaker) : Except ValErr SpeakerInfo := do
  let name ← require "name" r.name
  let title ← require "title" r.title
  let organization ← require "organization" r.organization
  let talk_title ← require "talk_title" r.talk_title
  .ok { name, title, organization, talk_title,
        bio := r.bio, pronunciation_hint := r.pronunciation_hint }

/-- Validate an optional speaker field. -/
def validateOptSpeaker : Option RawSpeaker → Except ValErr (Option SpeakerInfo)
  | none => .ok none
  | some r => do
      let s ← validateSpeaker r
      .ok (some s)

/-- Validate an optional panelist list. -/
def validatePanelists :
    List RawSpeaker → Except ValErr (List SpeakerInfo)
  | [] => .ok []
  | r :: rest => do
      let s ← validateSpeaker r
      let rest' ← validatePanelists rest
      .ok (s :: rest')

/-- Validate an optional panelists field. -/
def validateOptPanelists :
    Option (List RawSpeaker) → Except ValErr (Option (List SpeakerInfo))
  | none => .ok none
  | some l => do
      let l' ← validatePanelists l
      .ok (some l')

/-- Validate a `ConferenceSession` (required: id, type, title,
duration_minutes with the declared `gt=0`). -/
def validateSession (r : RawSession) : Except ValErr ConferenceSession := do
  let id ← require "id" r.id
  let tyStr ← require "type" r.type
  let ty ← parseSessionType tyStr
  let title ← require "title" r.title
  let d ← require "duration_minutes" r.duration_minutes
  if 0 < d then do
    let sp ← validateOptSpeaker r.speaker
    let pl ← validateOptPanelists r.panelists
    .ok { id, type := ty, title, duration_minutes := d,
          description := r.description, speaker := sp, panelists := pl,
          notes := r.notes }
  else .error (.notGreaterThanZero "duration_minutes")

/-- Validate every session of the agenda in order. -/
def validateSessions :
    List RawSession → Except ValErr (List ConferenceSession)
  | [] => .ok []
  | r :: rest => do
      let s ← validateSession r
      let rest' ← validateSessions rest
      .ok (s :: rest')

/-- Validate a `ConferenceAgenda` (required: id, title, date, venue,
sessions with the declared `min_length=1`; language and
moderator_voice default when absent). -/
def validateAgenda (r : RawAgenda) : Except ValErr ConferenceAgenda := do
  let id ← require "id" r.id
  let title ← require "title" r.title
  let date ← require "date" r.date
  let venue ← require "venue" r.venue
  let rawSessions ← require "sessions" r.sessions
  let sessions ← validateSessions rawSessions
  if sessions.isEmpty then .error (.tooShort "sessions")
  else
    .ok { id, title, date, venue,
          language := r.language.getD "tr",
          moderator_voice := r.moderator_voice.getD "coral",
          sessions }

/-- `AgendaManager` from `server/conference/agenda_manager.py`. -/
structure AgendaManager where
  agenda : Option ConferenceAgenda := none
  deriving DecidableEq, Repr

/-- `AgendaManager.load_from_dict`: `self.agenda =
ConferenceAgenda.model_validate(data)` — validation runs first, so a
failure leaves the previously stored agenda untouched, while success
replaces it in one assignment. -/
def loadFromDict (mgr : AgendaManager) (raw : RawAgenda) :
    AgendaManager × Except ValErr ConferenceAgenda :=
  match validateAgenda raw with
  | .ok a => (⟨some a⟩, .ok a)
  | .error e => (mgr, .error e)

/-- Run a list of public triggers in order. -/
def runTriggers (ts : List Trigger) (m : SM) : SM :=
  ts.foldl (fun m t => applyTrigger t m) m

/-- The router's dispatch on the new current session's type (the final
`if/elif/else` chain of `_route_transition`). -/
def routeDest : SessionType → ConferenceState
  | .break_ => .break_announcement
  | .closing => .closing
  | .keynote => .introducing_speaker
  | .talk => .introducing_speaker
  | .panel => .introducing_speaker
  | .qa => .introducing_speaker
  | .opening => .introducing_speaker

/-! ### Concrete fixtures -/

/-- The four-session agenda of the spec's scenario:
opening(3m), keynote(20m, speaker), break(10m), closing(3m). -/
def scenarioAgenda : ConferenceAgenda :=
  { id := "conf", title := "Conf", date := "2026-01-01", venue := "Hall",
    sessions :=
      [ { id := "opening", type := .opening, title := "Acilis",
          duration_minutes := 3 },
        { id := "keynote", type := .keynote, title := "Keynote",
          duration_minutes := 20,
          speaker := some { name := "Dr. Ayse", title := "Prof",
                            organization := "Uni", talk_title := "AI" } },
        { id := "break", type := .break_, title := "Mola",
          duration_minutes := 10 },
        { id := "closing", type := .closing, title := "Kapanis",
          duration_minutes := 3 } ] }

/-- Idle machine holding the scenario agenda. -/
def m0 : SM := { state := .idle, context := { agenda := some scenarioAgenda } }

/-- Machine during the break of the scenario agenda. -/
def mBreak : SM :=
  { state := .break_active,
    context := { agenda := some scenarioAgenda,
                 current_session_index := 2 } }

/-- Machine during the opening of the scenario agenda. -/
def mOpen : SM :=
  { state := .opening, context := { agenda := some scenarioAgenda } }

/-- Machine in transitioning at the last session of the scenario
agenda, with mid-session context values. -/
def mTrans : SM :=
  { state := .transitioning,
    context := { agenda := some scenarioAgenda,
                 current_session_index := 3,
                 elapsed_seconds := 5,
                 time_warning_issued := true } }

/-! ### Claims -/

/-- C5: starting from idle with the four-session agenda
[opening, keynote, break, closing], the trigger sequence
start; responseDone; responseDone; advanceSession("speaker_finished");
responseDone; responseDone; timeExpired; responseDone; responseDone
produces exactly the phase/index trace
opening → introducing_speaker(1) → speaker_active → thanking_speaker →
break_announcement(2) → break_active → break_ending → closing(3) →
ended. -/
theorem C5_scenario_trace :
    ((runTriggers [.start] m0).state = .opening
      ∧ (runTriggers [.start] m0).context.current_session_index = 0)
    ∧ ((runTriggers [.start, .responseDone] m0).state = .introducing_speaker
      ∧ (runTriggers [.start, .responseDone]
          m0).context.current_session_index = 1)
    ∧ (runTriggers [.start, .responseDone, .responseDone] m0).state
        = .speaker_active
    ∧ (runTriggers [.start, .responseDone, .responseDone,
        .advanceSession "speaker_finished"] m0).state = .thanking_speaker
    ∧ ((runTriggers [.start, .responseDone, .responseDone,
        .advanceSession "speaker_finished", .responseDone] m0).state
          = .break_announcement
      ∧ (runTriggers [.start, .responseDone, .responseDone,
          .advanceSession "speaker_finished", .responseDone]
          m0).context.current_session_index = 2)
    ∧ (runTriggers [.start, .responseDone, .responseDone,
        .advanceSession "speaker_finished", .responseDone, .responseDone]
        m0).state = .break_active
    ∧ (runTriggers [.start, .responseDone, .responseDone,
        .advanceSession "speaker_finished", .responseDone, .responseDone,
        .timeExpired] m0).state = .break_ending
    ∧ ((runTriggers [.start, .responseDone, .responseDone,
        .advanceSession "speaker_finished", .responseDone, .responseDone,
        .timeExpired, .responseDone] m0).state = .closing
      ∧ (runTriggers [.start, .responseDone, .responseDone,
          .advanceSession "speaker_finished", .responseDone, .responseDone,
          .timeExpired, .responseDone] m0).context.current_session_index = 3)
    ∧ (runTriggers [.start, .responseDone, .responseDone,
        .advanceSession "speaker_finished", .responseDone, .responseDone,
        .timeExpired, .responseDone, .responseDone] m0).state = .ended :=
  ⟨⟨rfl, rfl⟩, ⟨rfl, rfl⟩, rfl, rfl, ⟨rfl, rfl⟩, rfl, rfl, ⟨rfl, rfl⟩, rfl⟩

/-- C1: the claim says operatorNext from break_active or opening runs
the router, never resting in transitioning.  The code's
`handle_operator_next` never calls `_route_transition`: from
break_active (and opening) the phase lands in transitioning and stays
there — a further responseDone is a no-op, so the conference is stuck. -/
theorem C1_operator_next_stuck :
    (handleOperatorNext mBreak).state = ConferenceState.transitioning
    ∧ handleResponseDone (handleOperatorNext mBreak)
        = handleOperatorNext mBreak
    ∧ (handleOperatorNext mOpen).state = ConferenceState.transitioning
    ∧ handleResponseDone (handleOperatorNext mOpen)
        = handleOperatorNext mOpen :=
  ⟨rfl, rfl, rfl, rfl⟩

/-- C2 counterexample: invoking the router while transitioning with no
next session (last session of the scenario agenda, index 3, elapsed 5,
warning flag set) routes to closing but leaves the session index at 3
and performs no reset — refuting the claim that every invocation
increments the index and resets elapsed/warning, "including the
invocation where no next session exists". -/
theorem C2_router_counterexample :
    mTrans.state = ConferenceState.transitioning
    ∧ mTrans.context.next_session = none
    ∧ (routeTransition mTrans).state = ConferenceState.closing
    ∧ (routeTransition mTrans).context.current_session_index = 3
    ∧ ¬ (routeTransition mTrans).context.current_session_index
          = mTrans.context.current_session_index + 1
    ∧ (routeTransition mTrans).context.elapsed_seconds = 5
    ∧ (routeTransition mTrans).context.time_warning_issued = true :=
  ⟨rfl, rfl, rfl, rfl, by decide, rfl, rfl⟩

/-- C2 (amended): when the router runs while the phase is
transitioning, it increments the session index by exactly one and
resets elapsed-seconds and warning-issued exactly once *provided a next
session exists*; when no next session exists it goes to closing leaving
the context untouched. -/
theorem C2_router_amended (m : SM)
    (h : m.state = ConferenceState.transitioning) :
    (m.context.next_session = none →
      routeTransition m = { m with state := .closing })
    ∧ (∀ s, m.context.next_session = some s →
        (routeTransition m).context.current_session_index
            = m.context.current_session_index + 1
        ∧ (routeTransition m).context.elapsed_seconds = 0
        ∧ (routeTransition m).context.time_warning_issued = false) := by
  obtain ⟨st, c⟩ := m
  subst h
  constructor
  · intro hn
    simp [routeTransition, hn]
  · intro s hs
    simp only [routeTransition]
    rw [if_neg (by simp)]
    rw [hs]
    rcases hcur : ({ c with
        current_session_index := c.current_session_index + 1,
        elapsed_seconds := 0,
        time_warning_issued := false } :
          ConferenceContext).current_session with _ | s2
    · simp [hcur]
    · obtain ⟨sid, sty, stitle, sdur, sdesc, ssp, spl, snt⟩ := s2
      cases sty <;> simp [hcur]

/-- Machine in transitioning at the first session of the scenario
agenda, with mid-session context values. -/
def mTrans0 : SM :=
  { state := .transitioning,
    context := { agenda := some scenarioAgenda,
                 elapsed_seconds := 7,
                 time_warning_issued := true } }

/-- C2 amended witness: the router on a concrete transitioning state
with a next session (scenario agenda, index 0) increments the index to
1 and resets elapsed/warning. -/
theorem C2_router_amended_witness :
    (routeTransition mTrans0).context.current_session_index = 0 + 1
    ∧ (routeTransition mTrans0).context.elapsed_seconds = 0
    ∧ (routeTransition mTrans0).context.time_warning_issued = false :=
  (C2_router_amended mTrans0 rfl).2
    (scenarioAgenda.sessions.get ⟨1, by decide⟩) rfl

/-- C6: for every phase p and public trigger t with no entry in the
transition table / handler guards for p, invoking t leaves the machine
(in particular the phase) unchanged. -/
theorem C6_no_entry_no_change (t : Trigger) (p : ConferenceState)
    (c : ConferenceContext) (h : triggerEnabled t p = false) :
    applyTrigger t ⟨p, c⟩ = ⟨p, c⟩ := by
  cases t <;> cases p <;>
    first
      | rfl
      | simp [triggerEnabled] at h

/-- C6 witness: responseDone has no entry for speaker_active, and
invoking it there is a no-op. -/
theorem C6_no_entry_no_change_witness :
    triggerEnabled .responseDone .speaker_active = false
    ∧ applyTrigger .responseDone ⟨.speaker_active, {}⟩
        = (⟨.speaker_active, {}⟩ : SM) :=
  ⟨rfl, C6_no_entry_no_change .responseDone .speaker_active {} rfl⟩

/-- C7: when responseDone fires in break_ending and at least two
sessions follow the break session in the agenda, the session index
increases by exactly two in that single call (once in the break_ending
branch, once in the router), elapsed/warning are reset, and the
resulting phase is determined by the session two positions after the
break — the session immediately after the break is skipped. -/
theorem C7_break_ending_double_increment (m : SM) (a : ConferenceAgenda)
    (h1 : m.state = ConferenceState.break_ending)
    (h2 : m.context.agenda = some a)
    (h3 : m.context.current_session_index + 2 < a.sessions.length) :
    (handleResponseDone m).context.current_session_index
        = m.context.current_session_index + 2
    ∧ (handleResponseDone m).context.elapsed_seconds = 0
    ∧ (handleResponseDone m).context.time_warning_issued = false
    ∧ ∀ s, a.sessions.get? (m.context.current_session_index + 2) = some s →
        (handleResponseDone m).state = routeDest s.type := by
  obtain ⟨st, c⟩ := m
  subst h1
  have h2' : c.agenda = some a := h2
  have h3' : c.current_session_index + 2 < a.sessions.length := h3
  obtain ⟨s2, hs2⟩ :
      ∃ s2, a.sessions.get? (c.current_session_index + 2) = some s2 :=
    ⟨_, List.get?_eq_get h3'⟩
  simp only [handleResponseDone]
  simp only [routeTransition]
  rw [if_neg (by simp)]
  have hnext : ({ c with
      current_session_index := c.current_session_index + 1,
      elapsed_seconds := 0,
      time_warning_issued := false } :
        ConferenceContext).next_session = some s2 := by
    simp only [ConferenceContext.next_session, h2']
    exact hs2
  rw [hnext]
  have hcur : ({ c with
      current_session_index := c.current_session_index + 1 + 1,
      elapsed_seconds := 0,
      time_warning_issued := false } :
        ConferenceContext).current_session = some s2 := by
    simp only [ConferenceContext.current_session, h2']
    exact hs2
  rw [hcur]
  obtain ⟨sid, sty, stitle, sdur, sdesc, ssp, spl, snt⟩ := s2
  cases sty <;>
    refine ⟨rfl, rfl, rfl, ?_⟩ <;>
    · intro s hs
      rw [hs2] at hs
      cases hs
      simp [routeDest]

/-- Agenda with two sessions after its break: opening, break, talk,
closing. -/
def skipAgenda : ConferenceAgenda :=
  { id := "skip", title := "Skip", date := "2026-01-02", venue := "Hall",
    sessions :=
      [ { id := "opening", type := .opening, title := "Acilis",
          duration_minutes := 3 },
        { id := "break", type := .break_, title := "Mola",
          duration_minutes := 10 },
        { id := "talk", type := .talk, title := "Konusma",
          duration_minutes := 30 },
        { id := "closing", type := .closing, title := "Kapanis",
          duration_minutes := 3 } ] }

/-- Machine in break_ending on the break (index 1) of `skipAgenda`. -/
def mSkip : SM :=
  { state := .break_ending,
    context := { agenda := some skipAgenda, current_session_index := 1 } }

/-- C7 witness: ending the break of [opening, break, talk, closing]
jumps the index from 1 straight to 3 and lands on the closing session —
the talk at index 2 is never introduced. -/
theorem C7_break_ending_double_increment_witness :
    ((handleResponseDone mSkip).context.current_session_index = 1 + 2
      ∧ (handleResponseDone mSkip).context.elapsed_seconds = 0
      ∧ (handleResponseDone mSkip).context.time_warning_issued = false
      ∧ ∀ s, skipAgenda.sessions.get? (1 + 2) = some s →
          (handleResponseDone mSkip).state = routeDest s.type)
    ∧ (handleResponseDone mSkip).state = ConferenceState.closing :=
  ⟨C7_break_ending_double_increment mSkip skipAgenda rfl rfl (by decide),
   rfl⟩

/-- C8: a provider turn-complete event received while the phase is in
the silent category {idle, speaker_active, break_active, ended} does
not invoke responseDone and leaves the machine unchanged; in any other
phase it invokes responseDone. -/
theorem C8_turn_complete_silent (m : SM) :
    (m.state ∈ SILENT_STATES → onTurnComplete m = (m, false))
    ∧ (m.state ∉ SILENT_STATES →
        onTurnComplete m = (handleResponseDone m, true))
    ∧ (m.state ∈ SILENT_STATES ↔
        (m.state = .idle ∨ m.state = .speaker_active
          ∨ m.state = .break_active ∨ m.state = .ended)) := by
  refine ⟨fun h => ?_, fun h => ?_, ?_⟩
  · simp [onTurnComplete, h]
  · simp [onTurnComplete, h]
  · cases m.state <;> simp [SILENT_STATES]

/-- C8 witness: turn-complete in speaker_active (silent) is dropped;
turn-complete in thanking_speaker (not silent) invokes responseDone. -/
theorem C8_turn_complete_silent_witness :
    onTurnComplete ⟨.speaker_active, {}⟩
        = ((⟨.speaker_active, {}⟩ : SM), false)
    ∧ onTurnComplete ⟨.thanking_speaker, {}⟩
        = (handleResponseDone ⟨.thanking_speaker, {}⟩, true) :=
  ⟨(C8_turn_complete_silent ⟨.speaker_active, {}⟩).1 (by decide),
   (C8_turn_complete_silent ⟨.thanking_speaker, {}⟩).2.1 (by decide)⟩

/-- C10: from any of {speaker_active, interacting, time_warning},
advanceSession with any two reason strings produces identical results,
the resulting phase is thanking_speaker, and the context is untouched —
the reason argument has no influence. -/
theorem C10_advance_reason_irrelevant (c : ConferenceContext)
    (r1 r2 : String) (p : ConferenceState)
    (h : p = ConferenceState.speaker_active ∨ p = .interacting
          ∨ p = .time_warning) :
    handleAdvanceSession r1 ⟨p, c⟩ = handleAdvanceSession r2 ⟨p, c⟩
    ∧ (handleAdvanceSession r1 ⟨p, c⟩).state
        = ConferenceState.thanking_speaker
    ∧ (handleAdvanceSession r1 ⟨p, c⟩).context = c := by
  rcases h with rfl | rfl | rfl <;> exact ⟨rfl, rfl, rfl⟩

/-- C10 witness: from speaker_active, reasons "speaker_finished" and
"operator_skip" give the same result, phase thanking_speaker, context
untouched. -/
theorem C10_advance_reason_irrelevant_witness :
    handleAdvanceSession "speaker_finished" ⟨.speaker_active, {}⟩
        = handleAdvanceSession "operator_skip" ⟨.speaker_active, {}⟩
    ∧ (handleAdvanceSession "speaker_finished"
        ⟨.speaker_active, {}⟩).state = ConferenceState.thanking_speaker
    ∧ (handleAdvanceSession "speaker_finished"
        ⟨.speaker_active, {}⟩).context = {} :=
  C10_advance_reason_irrelevant {} "speaker_finished" "operator_skip"
    .speaker_active (Or.inl rfl)

/-- Context fields untouched by the time-expired signal handling: the
expiry transition and its fan-out never modify elapsed seconds, the
session start, pause accounting, or the warning flag. -/
theorem sysHandleTimeExpired_fields (now : ℚ) (sys : Sys) :
    (sysHandleTimeExpired now sys).sm.context.elapsed_seconds
        = sys.sm.context.elapsed_seconds
    ∧ (sysHandleTimeExpired now sys).sm.context.session_start_time
        = sys.sm.context.session_start_time
    ∧ (sysHandleTimeExpired now sys).timer.pause_accumulated
        = sys.timer.pause_accumulated
    ∧ (sysHandleTimeExpired now sys).timer.paused = sys.timer.paused
    ∧ (sysHandleTimeExpired now sys).sm.context.time_warning_issued
        = sys.sm.context.time_warning_issued := by
  obtain ⟨⟨st, c⟩, t⟩ := sys
  cases st <;>
    simp [sysHandleTimeExpired, handleTimeExpired, timerFanout, timedStates]

/-- The warning signal handling sets the warning flag whenever the
phase is speaker_active or interacting. -/
theorem sysHandleTimeWarning_flag (now : ℚ) (sys : Sys)
    (h : sys.sm.state = ConferenceState.speaker_active
          ∨ sys.sm.state = ConferenceState.interacting) :
    (sysHandleTimeWarning now sys).sm.context.time_warning_issued = true := by
  obtain ⟨⟨st, c⟩, t⟩ := sys
  obtain ⟨ag, idx, sst, el, twi, cst, ip⟩ := c
  rcases h with h | h <;> cases h <;> rcases ag with _ | a <;>
    simp [sysHandleTimeWarning, handleTimeWarning, timerFanout, timedStates,
          timerStart, ConferenceContext.current_session] <;>
    rcases hq : a.sessions[idx]? with _ | s <;> simp [hq]

/-- A tick that does not emit the warning signal only rewrites elapsed
seconds (and, on expiry, clears the running flag). -/
theorem sysTick_no_warn (sys : Sys) (n st : ℚ)
    (hr : sys.timer.running = true) (hp : sys.timer.paused = false)
    (hst : sys.sm.context.session_start_time = some st)
    (hw : (sysTick n sys).warned = false) :
    (sysTick n sys).sys.sm.context.elapsed_seconds
        = n - st - sys.timer.pause_accumulated
    ∧ (sysTick n sys).sys.sm.context.session_start_time = some st
    ∧ (sysTick n sys).sys.timer.pause_accumulated
        = sys.timer.pause_accumulated
    ∧ (sysTick n sys).sys.timer.paused = false
    ∧ ((sysTick n sys).expired = false →
        (sysTick n sys).sys.timer.running = true) := by
  obtain ⟨⟨stt, c⟩, t⟩ := sys
  simp only at hr hp hst
  simp only [sysTick, hr, hp, hst] at hw ⊢
  simp only [Bool.not_true, Bool.false_or] at hw ⊢
  rw [if_neg (by simp)] at hw
  rw [if_neg (by simp)]
  split at hw
  case isTrue hrem =>
    rw [if_pos hrem]
    dsimp only at hw
    rw [if_neg (by rw [hw]; simp)]
    refine ⟨?_, ?_, ?_, ?_, ?_⟩
    · exact (sysHandleTimeExpired_fields n _).1
    · exact (sysHandleTimeExpired_fields n _).2.1
    · exact (sysHandleTimeExpired_fields n _).2.2.1
    · exact (sysHandleTimeExpired_fields n _).2.2.2.1.trans hp
    · intro h
      simp at h
  case isFalse hrem =>
    rw [if_neg hrem]
    dsimp only at hw
    rw [if_neg (by rw [hw]; simp)]
    exact ⟨rfl, rfl, rfl, hp, fun _ => hr⟩

/-- Running system mid-keynote (session index 1 of the scenario agenda,
20 minutes = 1200 s), 100 s elapsed, not paused. -/
def sysSpk : Sys :=
  { sm := { state := .speaker_active,
            context := { agenda := some scenarioAgenda,
                         current_session_index := 1,
                         session_start_time := some 0,
                         elapsed_seconds := 100 } },
    timer := { running := true, total_seconds := 1200 } }

/-- Running system in the break (session index 2 of the scenario
agenda, 10 minutes = 600 s), timer started at time 0. -/
def sysBrk : Sys :=
  { sm := { state := .break_active,
            context := { agenda := some scenarioAgenda,
                         current_session_index := 2,
                         session_start_time := some 0 } },
    timer := { running := true, total_seconds := 600 } }

/-- Running system at the start of the keynote (session index 1 of the
scenario agenda), timer started at time 0, warning flag unset. -/
def sysSpk2 : Sys :=
  { sm := { state := .speaker_active,
            context := { agenda := some scenarioAgenda,
                         current_session_index := 1,
                         session_start_time := some 0 } },
    timer := { running := true, total_seconds := 1200 } }

/-- C3 counterexample: with the paused flag false, 100 s into the
keynote, the mid-session phase change speaker_active → time_warning
(an operation of the system) resets elapsed_seconds from 100 to 0 via
the timer restart in the phase-change fan-out — refuting monotonic
non-decrease of elapsed seconds across every operation. -/
theorem C3_elapsed_reset_counterexample :
    sysSpk.sm.state = ConferenceState.speaker_active
    ∧ sysSpk.sm.context.is_paused = false
    ∧ sysSpk.timer.paused = false
    ∧ sysSpk.sm.context.elapsed_seconds = 100
    ∧ (sysHandleTimeWarning 100 sysSpk).sm.state
        = ConferenceState.time_warning
    ∧ (sysHandleTimeWarning 100 sysSpk).sm.context.current_session_index
        = sysSpk.sm.context.current_session_index
    ∧ (sysHandleTimeWarning 100 sysSpk).sm.context.elapsed_seconds = 0
    ∧ ¬ (100 : ℚ) ≤ 0 :=
  ⟨rfl, rfl, rfl, rfl, rfl, rfl, rfl, by norm_num⟩

/-- C3 (amended): while the timer runs unpaused, elapsed seconds are
non-decreasing across consecutive timer ticks that emit no warning
signal; but any mid-session phase change entering a timed state — the
time-warning transition or toggleInteract from speaker_active or
interacting — restarts the timer via the phase-change fan-out and
resets elapsed_seconds to 0. -/
theorem C3_elapsed_amended :
    (∀ (sys : Sys) (st n1 n2 : ℚ),
        sys.timer.running = true → sys.timer.paused = false →
        sys.sm.context.session_start_time = some st →
        (sysTick n1 sys).warned = false →
        (sysTick n1 sys).expired = false →
        (sysTick n2 (sysTick n1 sys).sys).warned = false →
        n1 ≤ n2 →
        (sysTick n1 sys).sys.sm.context.elapsed_seconds
          ≤ (sysTick n2 (sysTick n1 sys).sys).sys.sm.context.elapsed_seconds)
    ∧ (∀ (sys : Sys) (now : ℚ),
        sys.sm.state = ConferenceState.speaker_active
          ∨ sys.sm.state = ConferenceState.interacting →
        (sysHandleTimeWarning now sys).sm.context.elapsed_seconds = 0
        ∧ (sysHandleToggleInteract now sys).sm.context.elapsed_seconds
            = 0) := by
  constructor
  · intro sys st n1 n2 hr hp hst hw1 he1 hw2 hle
    obtain ⟨e1, st1, a1, p1, r1⟩ := sysTick_no_warn sys n1 st hr hp hst hw1
    obtain ⟨e2, -, -, -, -⟩ :=
      sysTick_no_warn (sysTick n1 sys).sys n2 st (r1 he1) p1 st1 hw2
    rw [e1, e2, a1]
    linarith
  · intro sys now h
    obtain ⟨⟨stt, c⟩, t⟩ := sys
    obtain ⟨ag, idx, sst, el, twi, cst, ip⟩ := c
    rcases h with h | h <;> cases h <;>
      refine ⟨?_, ?_⟩ <;>
        rcases ag with _ | a <;>
          simp [sysHandleTimeWarning, sysHandleToggleInteract,
                handleTimeWarning, handleToggleInteract, timerFanout,
                timedStates, timerStart,
                ConferenceContext.current_session] <;>
          rcases hq : a.sessions[idx]? with _ | s <;> simp [hq]

/-- C3 amended witness: two early no-warning ticks of the break keep
elapsed non-decreasing, and the concrete warning transition at 100 s
into the keynote resets elapsed to 0. -/
theorem C3_elapsed_amended_witness :
    (sysTick 10 sysBrk).sys.sm.context.elapsed_seconds
        ≤ (sysTick 11 (sysTick 10 sysBrk).sys).sys.sm.context.elapsed_seconds
    ∧ ((sysHandleTimeWarning 100 sysSpk).sm.context.elapsed_seconds = 0
        ∧ (sysHandleToggleInteract 100
            sysSpk).sm.context.elapsed_seconds = 0) :=
  ⟨C3_elapsed_amended.1 sysBrk 0 10 11 rfl rfl rfl
      (by norm_num [sysTick, sysBrk, scenarioAgenda, timeWarningThreshold,
                    sysHandleTimeWarning, handleTimeWarning, timerFanout,
                    timedStates, timerStart, sysHandleTimeExpired,
                    handleTimeExpired, ConferenceContext.current_session])
      (by norm_num [sysTick, sysBrk, scenarioAgenda, timeWarningThreshold,
                    sysHandleTimeWarning, handleTimeWarning, timerFanout,
                    timedStates, timerStart, sysHandleTimeExpired,
                    handleTimeExpired, ConferenceContext.current_session])
      (by norm_num [sysTick, sysBrk, scenarioAgenda, timeWarningThreshold,
                    sysHandleTimeWarning, handleTimeWarning, timerFanout,
                    timedStates, timerStart, sysHandleTimeExpired,
                    handleTimeExpired, ConferenceContext.current_session])
      (by norm_num),
   C3_elapsed_amended.2 sysSpk 100 (Or.inl rfl)⟩

/-- C4 counterexample: in the break session (phase break_active, flag
false), the tick at 480 s (progress 0.8 of 600 s) emits the warning
signal, the FSM ignores it and the flag stays false, and the very next
tick at 481 s emits the warning signal again — refuting "at most once
between two consecutive session resets" for break sessions. -/
theorem C4_break_warning_counterexample :
    sysBrk.sm.state = ConferenceState.break_active
    ∧ sysBrk.sm.context.time_warning_issued = false
    ∧ (sysTick 480 sysBrk).warned = true
    ∧ (sysTick 480 sysBrk).sys.sm.context.time_warning_issued = false
    ∧ (sysTick 481 (sysTick 480 sysBrk).sys).warned = true := by
  refine ⟨rfl, rfl, ?_, ?_, ?_⟩ <;>
    norm_num [sysTick, sysBrk, scenarioAgenda, timeWarningThreshold,
              sysHandleTimeWarning, handleTimeWarning, timerFanout,
              timedStates, timerStart, sysHandleTimeExpired,
              handleTimeExpired, ConferenceContext.current_session]

/-- C4 (amended): the warning signal is edge-triggered by the
warning-issued flag, but the flag is set only by the FSM and only when
the phase is speaker_active or interacting.  Hence: a tick never emits
the warning while the flag is set, and in the speaker phases an
emitting tick sets the flag — so the signal fires at most once per
speaker session; in break_active the flag is never set and the timer
re-emits the signal on every tick past the threshold. -/
theorem C4_warning_amended :
    (∀ (sys : Sys) (n : ℚ),
        sys.sm.context.time_warning_issued = true →
        (sysTick n sys).warned = false)
    ∧ (∀ (sys : Sys) (n : ℚ),
        (sys.sm.state = ConferenceState.speaker_active
          ∨ sys.sm.state = ConferenceState.interacting) →
        (sysTick n sys).warned = true →
        (sysTick n sys).sys.sm.context.time_warning_issued = true) := by
  constructor
  · intro sys n hf
    obtain ⟨⟨stt, c⟩, t⟩ := sys
    simp only at hf
    simp only [sysTick]
    split
    · rfl
    · split
      · rfl
      · split <;> (dsimp only; simp [hf])
  · intro sys n hs hw
    obtain ⟨⟨stt, c⟩, t⟩ := sys
    simp only at hs
    simp only [sysTick] at hw ⊢
    split at hw
    next hguard => cases hw
    next hguard =>
      rw [if_neg hguard]
      split at hw
      next heq => cases hw
      next st heq =>
        rw [heq]
        split at hw
        next hrem =>
          rw [if_pos hrem]
          dsimp only at hw ⊢
          rw [if_pos hw]
          refine ((sysHandleTimeExpired_fields n _).2.2.2.2).trans ?_
          exact sysHandleTimeWarning_flag n _ hs
        next hrem =>
          rw [if_neg hrem]
          dsimp only at hw ⊢
          rw [if_pos hw]
          exact sysHandleTimeWarning_flag n _ hs

/-- C4 amended witness: the keynote tick at 960 s (progress 0.8) emits
the warning, the flag latches true, and the next tick emits nothing. -/
theorem C4_warning_amended_witness :
    (sysTick 960 sysSpk2).sys.sm.context.time_warning_issued = true
    ∧ (sysTick 961 (sysTick 960 sysSpk2).sys).warned = false :=
  ⟨C4_warning_amended.2 sysSpk2 960 (Or.inl rfl)
      (by norm_num [sysTick, sysSpk2, scenarioAgenda, timeWarningThreshold,
                    sysHandleTimeWarning, handleTimeWarning, timerFanout,
                    timedStates, timerStart, sysHandleTimeExpired,
                    handleTimeExpired, ConferenceContext.current_session]),
   C4_warning_amended.1 (sysTick 960 sysSpk2).sys 961
      (by norm_num [sysTick, sysSpk2, scenarioAgenda, timeWarningThreshold,
                    sysHandleTimeWarning, handleTimeWarning, timerFanout,
                    timedStates, timerStart, sysHandleTimeExpired,
                    handleTimeExpired, ConferenceContext.current_session])⟩

/-- A session accepted by validation has the positive duration the
input declared. -/
theorem validateSession_ok (r : RawSession) (s : ConferenceSession)
    (h : validateSession r = .ok s) :
    r.duration_minutes = some s.duration_minutes
    ∧ 0 < s.duration_minutes := by
  unfold validateSession at h
  rcases hid : r.id with _ | id <;> rw [hid] at h <;>
    simp only [require, Bind.bind, Except.bind] at h
  · cases h
  rcases hty : r.type with _ | ty <;> rw [hty] at h <;>
    simp only [require, Bind.bind, Except.bind] at h
  · cases h
  rcases hpt : parseSessionType ty with e | ty' <;> rw [hpt] at h <;>
    simp only [Bind.bind, Except.bind] at h
  · cases h
  rcases hti : r.title with _ | ti <;> rw [hti] at h <;>
    simp only [require, Bind.bind, Except.bind] at h
  · cases h
  rcases hd : r.duration_minutes with _ | d <;> rw [hd] at h <;>
    simp only [require, Bind.bind, Except.bind] at h
  · cases h
  by_cases h0 : 0 < d
  · rw [if_pos h0] at h
    rcases hsp : validateOptSpeaker r.speaker with e | sp <;> rw [hsp] at h <;>
      simp only [Bind.bind, Except.bind] at h
    · cases h
    rcases hpl : validateOptPanelists r.panelists with e | pl <;>
      rw [hpl] at h <;> simp only [Bind.bind, Except.bind] at h
    · cases h
    cases h
    exact ⟨rfl, h0⟩
  · rw [if_neg h0] at h
    cases h

/-- A session list accepted by validation contains only positive
durations, both on the output side and on the raw input side. -/
theorem validateSessions_ok (l : List RawSession)
    (l' : List ConferenceSession) (h : validateSessions l = .ok l') :
    (∀ s ∈ l', 0 < s.duration_minutes)
    ∧ (∀ r ∈ l, ∀ d, r.duration_minutes = some d → 0 < d) := by
  induction l generalizing l' with
  | nil =>
    cases h
    exact ⟨by simp, by simp⟩
  | cons r rest ih =>
    unfold validateSessions at h
    rcases hv : validateSession r with e | s <;> rw [hv] at h <;>
      simp only [Bind.bind, Except.bind] at h
    · cases h
    rcases hrest : validateSessions rest with e | rest' <;>
      rw [hrest] at h <;> simp only [Bind.bind, Except.bind] at h
    · cases h
    cases h
    obtain ⟨hdur, hpos⟩ := validateSession_ok r s hv
    obtain ⟨ih1, ih2⟩ := ih rest' hrest
    constructor
    · intro s' hs'
      rcases List.mem_cons.mp hs' with rfl | hs'
      · exact hpos
      · exact ih1 s' hs'
    · intro r' hr' d hd
      rcases List.mem_cons.mp hr' with rfl | hr'
      · rw [hdur] at hd
        cases hd
        exact hpos
      · exact ih2 r' hr' d hd

/-- An agenda accepted by validation has a raw session list that
validated to its (nonempty) session list. -/
theorem validateAgenda_ok (raw : RawAgenda) (a : ConferenceAgenda)
    (h : validateAgenda raw = .ok a) :
    ∃ l, raw.sessions = some l
      ∧ validateSessions l = .ok a.sessions ∧ a.sessions ≠ [] := by
  unfold validateAgenda at h
  rcases hid : raw.id with _ | id <;> rw [hid] at h <;>
    simp only [require, Bind.bind, Except.bind] at h
  · cases h
  rcases hti : raw.title with _ | ti <;> rw [hti] at h <;>
    simp only [require, Bind.bind, Except.bind] at h
  · cases h
  rcases hda : raw.date with _ | da <;> rw [hda] at h <;>
    simp only [require, Bind.bind, Except.bind] at h
  · cases h
  rcases hve : raw.venue with _ | ve <;> rw [hve] at h <;>
    simp only [require, Bind.bind, Except.bind] at h
  · cases h
  rcases hse : raw.sessions with _ | l <;> rw [hse] at h <;>
    simp only [require, Bind.bind, Except.bind] at h
  · cases h
  rcases hvs : validateSessions l with e | ss <;> rw [hvs] at h <;>
    simp only [Bind.bind, Except.bind] at h
  · cases h
  by_cases hemp : ss.isEmpty
  · rw [if_pos hemp] at h
    cases h
  · rw [if_neg hemp] at h
    cases h
    exact ⟨l, rfl, hvs, by simpa [List.isEmpty_iff] using hemp⟩

/-- The named agenda-level required field is absent from the raw
input. -/
def agendaFieldMissing (raw : RawAgenda) (f : String) : Prop :=
  (f = "id" ∧ raw.id = none) ∨ (f = "title" ∧ raw.title = none)
  ∨ (f = "date" ∧ raw.date = none) ∨ (f = "venue" ∧ raw.venue = none)
  ∨ (f = "sessions" ∧ raw.sessions = none)

/-- The named session-level required field is absent from the raw
session. -/
def sessionFieldMissing (r : RawSession) (f : String) : Prop :=
  (f = "id" ∧ r.id = none) ∨ (f = "type" ∧ r.type = none)
  ∨ (f = "title" ∧ r.title = none)
  ∨ (f = "duration_minutes" ∧ r.duration_minutes = none)

/-- The named speaker-level required field is absent from the raw
speaker. -/
def speakerFieldMissing (sp : RawSpeaker) (f : String) : Prop :=
  (f = "name" ∧ sp.name = none) ∨ (f = "title" ∧ sp.title = none)
  ∨ (f = "organization" ∧ sp.organization = none)
  ∨ (f = "talk_title" ∧ sp.talk_title = none)

/-- All raw speaker records attached to a raw session (speaker plus
panelists). -/
def rawSpeakers (r : RawSession) : List RawSpeaker :=
  (match r.speaker with | some sp => [sp] | none => []) ++ r.panelists.getD []

/-- The error genuinely describes a violation of the raw session at
the field it names. -/
def sessionErrSound (r : RawSession) (e : ValErr) : Prop :=
  (∃ f, e = ValErr.missingField f ∧
    (sessionFieldMissing r f ∨ ∃ sp ∈ rawSpeakers r, speakerFieldMissing sp f))
  ∨ (e = ValErr.notGreaterThanZero "duration_minutes"
      ∧ ∃ d, r.duration_minutes = some d ∧ d ≤ 0)
  ∨ (e = ValErr.invalidEnum "type"
      ∧ ∃ ty, r.type = some ty
        ∧ parseSessionType ty = .error (ValErr.invalidEnum "type"))

/-- The error genuinely describes a violation of the raw agenda: the
field it names is a really-missing required field, a really
nonpositive duration, the really-empty session list, or a really
unrecognized session-type tag. -/
def agendaErrSound (raw : RawAgenda) (e : ValErr) : Prop :=
  (∃ f, e = ValErr.missingField f ∧
    (agendaFieldMissing raw f
      ∨ ∃ l, raw.sessions = some l ∧ ∃ r ∈ l,
          (sessionFieldMissing r f
            ∨ ∃ sp ∈ rawSpeakers r, speakerFieldMissing sp f)))
  ∨ (e = ValErr.notGreaterThanZero "duration_minutes"
      ∧ ∃ l, raw.sessions = some l
        ∧ ∃ r ∈ l, ∃ d, r.duration_minutes = some d ∧ d ≤ 0)
  ∨ (e = ValErr.tooShort "sessions" ∧ raw.sessions = some [])
  ∨ (e = ValErr.invalidEnum "type"
      ∧ ∃ l, raw.sessions = some l ∧ ∃ r ∈ l, ∃ ty, r.type = some ty
          ∧ parseSessionType ty = .error (ValErr.invalidEnum "type"))

/-- The only error the session-type parser raises names the type
field. -/
theorem parseSessionType_error (s : String) (e : ValErr)
    (h : parseSessionType s = .error e) : e = ValErr.invalidEnum "type" := by
  unfold parseSessionType at h
  split at h <;> cases h <;> rfl

/-- A speaker validation error is a missing-field error naming a
really-missing required speaker field. -/
theorem validateSpeaker_error (sp : RawSpeaker) (e : ValErr)
    (h : validateSpeaker sp = .error e) :
    ∃ f, e = ValErr.missingField f ∧ speakerFieldMissing sp f := by
  unfold validateSpeaker at h
  rcases hn : sp.name with _ | n <;> rw [hn] at h <;>
    simp only [require, Bind.bind, Except.bind] at h
  · cases h
    exact ⟨"name", rfl, Or.inl ⟨rfl, hn⟩⟩
  rcases ht : sp.title with _ | t' <;> rw [ht] at h <;>
    simp only [require, Bind.bind, Except.bind] at h
  · cases h
    exact ⟨"title", rfl, Or.inr (Or.inl ⟨rfl, ht⟩)⟩
  rcases ho : sp.organization with _ | o' <;> rw [ho] at h <;>
    simp only [require, Bind.bind, Except.bind] at h
  · cases h
    exact ⟨"organization", rfl, Or.inr (Or.inr (Or.inl ⟨rfl, ho⟩))⟩
  rcases hta : sp.talk_title with _ | ta <;> rw [hta] at h <;>
    simp only [require, Bind.bind, Except.bind] at h
  · cases h
    exact ⟨"talk_title", rfl, Or.inr (Or.inr (Or.inr ⟨rfl, hta⟩))⟩
  cases h

/-- An optional-speaker validation error comes from a present speaker
with a really-missing required field. -/
theorem validateOptSpeaker_error (o : Option RawSpeaker) (e : ValErr)
    (h : validateOptSpeaker o = .error e) :
    ∃ sp, o = some sp
      ∧ ∃ f, e = ValErr.missingField f ∧ speakerFieldMissing sp f := by
  cases o with
  | none => simp [validateOptSpeaker] at h
  | some sp =>
    rcases hv : validateSpeaker sp with e' | s' <;>
      simp only [validateOptSpeaker, hv, Bind.bind, Except.bind] at h
    · cases h
      exact ⟨sp, rfl, validateSpeaker_error sp _ hv⟩
    · cases h

/-- A panelist-list validation error comes from a panelist with a
really-missing required field. -/
theorem validatePanelists_error (l : List RawSpeaker) (e : ValErr)
    (h : validatePanelists l = .error e) :
    ∃ sp ∈ l, ∃ f, e = ValErr.missingField f ∧ speakerFieldMissing sp f := by
  induction l with
  | nil => simp [validatePanelists] at h
  | cons sp rest ih =>
    unfold validatePanelists at h
    rcases hv : validateSpeaker sp with e' | s' <;> rw [hv] at h <;>
      simp only [Bind.bind, Except.bind] at h
    · cases h
      exact ⟨sp, by simp, validateSpeaker_error sp _ hv⟩
    rcases hrest : validatePanelists rest with e' | rest' <;> rw [hrest] at h <;>
      simp only [Bind.bind, Except.bind] at h
    · cases h
      obtain ⟨sp', hmem, hf⟩ := ih hrest
      exact ⟨sp', by simp [hmem], hf⟩
    · cases h

/-- An optional-panelists validation error comes from a present
panelist list containing a speaker with a really-missing field. -/
theorem validateOptPanelists_error (o : Option (List RawSpeaker)) (e : ValErr)
    (h : validateOptPanelists o = .error e) :
    ∃ lp, o = some lp ∧ ∃ sp ∈ lp,
      ∃ f, e = ValErr.missingField f ∧ speakerFieldMissing sp f := by
  cases o with
  | none => simp [validateOptPanelists] at h
  | some lp =>
    rcases hv : validatePanelists lp with e' | l' <;>
      simp only [validateOptPanelists, hv, Bind.bind, Except.bind] at h
    · cases h
      exact ⟨lp, rfl, validatePanelists_error lp _ hv⟩
    · cases h

/-- A session validation error genuinely describes a violation of the
raw session at the field it names. -/
theorem validateSession_error (r : RawSession) (e : ValErr)
    (h : validateSession r = .error e) : sessionErrSound r e := by
  unfold validateSession at h
  rcases hid : r.id with _ | id <;> rw [hid] at h <;>
    simp only [require, Bind.bind, Except.bind] at h
  · cases h
    exact Or.inl ⟨"id", rfl, Or.inl (Or.inl ⟨rfl, hid⟩)⟩
  rcases hty : r.type with _ | ty <;> rw [hty] at h <;>
    simp only [require, Bind.bind, Except.bind] at h
  · cases h
    exact Or.inl ⟨"type", rfl, Or.inl (Or.inr (Or.inl ⟨rfl, hty⟩))⟩
  rcases hpt : parseSessionType ty with e' | ty' <;> rw [hpt] at h <;>
    simp only [Bind.bind, Except.bind] at h
  · cases h
    have he := parseSessionType_error ty _ hpt
    subst he
    exact Or.inr (Or.inr ⟨rfl, ty, hty, hpt⟩)
  rcases hti : r.title with _ | ti <;> rw [hti] at h <;>
    simp only [require, Bind.bind, Except.bind] at h
  · cases h
    exact Or.inl ⟨"title", rfl, Or.inl (Or.inr (Or.inr (Or.inl ⟨rfl, hti⟩)))⟩
  rcases hd : r.duration_minutes with _ | d <;> rw [hd] at h <;>
    simp only [require, Bind.bind, Except.bind] at h
  · cases h
    exact Or.inl ⟨"duration_minutes", rfl,
      Or.inl (Or.inr (Or.inr (Or.inr ⟨rfl, hd⟩)))⟩
  by_cases h0 : 0 < d
  · rw [if_pos h0] at h
    rcases hsp : validateOptSpeaker r.speaker with e' | sp <;> rw [hsp] at h <;>
      simp only [Bind.bind, Except.bind] at h
    · cases h
      obtain ⟨sp', hspo, f, hef, hsf⟩ := validateOptSpeaker_error _ _ hsp
      refine Or.inl ⟨f, hef, Or.inr ⟨sp', ?_, hsf⟩⟩
      simp [rawSpeakers, hspo]
    rcases hpl : validateOptPanelists r.panelists with e' | pl <;>
      rw [hpl] at h <;> simp only [Bind.bind, Except.bind] at h
    · cases h
      obtain ⟨lp, hplo, sp', hmem, f, hef, hsf⟩ :=
        validateOptPanelists_error _ _ hpl
      refine Or.inl ⟨f, hef, Or.inr ⟨sp', ?_, hsf⟩⟩
      simp [rawSpeakers, hplo, hmem]
    · cases h
  · rw [if_neg h0] at h
    cases h
    exact Or.inr (Or.inl ⟨rfl, d, hd, by linarith⟩)

/-- A session-list validation error comes from some session of the
list and genuinely describes its violation. -/
theorem validateSessions_error (l : List RawSession) (e : ValErr)
    (h : validateSessions l = .error e) : ∃ r ∈ l, sessionErrSound r e := by
  induction l with
  | nil => simp [validateSessions] at h
  | cons r rest ih =>
    unfold validateSessions at h
    rcases hv : validateSession r with e' | s <;> rw [hv] at h <;>
      simp only [Bind.bind, Except.bind] at h
    · cases h
      exact ⟨r, by simp, validateSession_error r _ hv⟩
    rcases hrest : validateSessions rest with e' | rest' <;> rw [hrest] at h <;>
      simp only [Bind.bind, Except.bind] at h
    · cases h
      obtain ⟨r', hmem, hs⟩ := ih hrest
      exact ⟨r', by simp [hmem], hs⟩
    · cases h

/-- Every session of an accepted list was itself accepted. -/
theorem validateSessions_ok_each (l : List RawSession)
    (l' : List ConferenceSession) (h : validateSessions l = .ok l') :
    ∀ r ∈ l, ∃ s, validateSession r = .ok s := by
  induction l generalizing l' with
  | nil => simp
  | cons r rest ih =>
    unfold validateSessions at h
    rcases hv : validateSession r with e | s <;> rw [hv] at h <;>
      simp only [Bind.bind, Except.bind] at h
    · cases h
    rcases hrest : validateSessions rest with e | rest' <;> rw [hrest] at h <;>
      simp only [Bind.bind, Except.bind] at h
    · cases h
    intro r' hr'
    rcases List.mem_cons.mp hr' with rfl | hr'
    · exact ⟨s, hv⟩
    · exact ih rest' hrest r' hr'

/-- An accepted session has all its required fields present. -/
theorem validateSession_ok_presence (r : RawSession) (s : ConferenceSession)
    (h : validateSession r = .ok s) :
    r.id ≠ none ∧ r.type ≠ none ∧ r.title ≠ none
      ∧ r.duration_minutes ≠ none := by
  unfold validateSession at h
  rcases hid : r.id with _ | id <;> rw [hid] at h <;>
    simp only [require, Bind.bind, Except.bind] at h
  · cases h
  rcases hty : r.type with _ | ty <;> rw [hty] at h <;>
    simp only [require, Bind.bind, Except.bind] at h
  · cases h
  rcases hpt : parseSessionType ty with e | ty' <;> rw [hpt] at h <;>
    simp only [Bind.bind, Except.bind] at h
  · cases h
  rcases hti : r.title with _ | ti <;> rw [hti] at h <;>
    simp only [require, Bind.bind, Except.bind] at h
  · cases h
  rcases hd : r.duration_minutes with _ | d <;> rw [hd] at h <;>
    simp only [require, Bind.bind, Except.bind] at h
  · cases h
  simp [hid, hty, hti, hd]

/-- The session validator maps only the empty list to the empty
list. -/
theorem validateSessions_ok_nil (l : List RawSession)
    (h : validateSessions l = .ok []) : l = [] := by
  cases l with
  | nil => rfl
  | cons r rest =>
    unfold validateSessions at h
    rcases hv : validateSession r with e | s <;> rw [hv] at h <;>
      simp only [Bind.bind, Except.bind] at h
    · cases h
    rcases hrest : validateSessions rest with e | rest' <;> rw [hrest] at h <;>
      simp only [Bind.bind, Except.bind] at h
    · cases h
    · simp at h

/-- Every agenda validation error genuinely describes a violation of
the raw agenda at the field it names. -/
theorem validateAgenda_error (raw : RawAgenda) (e : ValErr)
    (h : validateAgenda raw = .error e) : agendaErrSound raw e := by
  unfold validateAgenda at h
  rcases hid : raw.id with _ | id <;> rw [hid] at h <;>
    simp only [require, Bind.bind, Except.bind] at h
  · cases h
    exact Or.inl ⟨"id", rfl, Or.inl (Or.inl ⟨rfl, hid⟩)⟩
  rcases hti : raw.title with _ | ti <;> rw [hti] at h <;>
    simp only [require, Bind.bind, Except.bind] at h
  · cases h
    exact Or.inl ⟨"title", rfl, Or.inl (Or.inr (Or.inl ⟨rfl, hti⟩))⟩
  rcases hda : raw.date with _ | da <;> rw [hda] at h <;>
    simp only [require, Bind.bind, Except.bind] at h
  · cases h
    exact Or.inl ⟨"date", rfl, Or.inl (Or.inr (Or.inr (Or.inl ⟨rfl, hda⟩)))⟩
  rcases hve : raw.venue with _ | ve <;> rw [hve] at h <;>
    simp only [require, Bind.bind, Except.bind] at h
  · cases h
    exact Or.inl ⟨"venue", rfl,
      Or.inl (Or.inr (Or.inr (Or.inr (Or.inl ⟨rfl, hve⟩))))⟩
  rcases hse : raw.sessions with _ | l <;> rw [hse] at h <;>
    simp only [require, Bind.bind, Except.bind] at h
  · cases h
    exact Or.inl ⟨"sessions", rfl,
      Or.inl (Or.inr (Or.inr (Or.inr (Or.inr ⟨rfl, hse⟩))))⟩
  rcases hvs : validateSessions l with e' | ss <;> rw [hvs] at h <;>
    simp only [Bind.bind, Except.bind] at h
  · cases h
    obtain ⟨r, hmem, hs⟩ := validateSessions_error l _ hvs
    rcases hs with ⟨f, hef, hrest⟩ | ⟨hef, d, hd, hle⟩ | ⟨hef, ty, hty, hpt⟩
    · exact Or.inl ⟨f, hef, Or.inr ⟨l, hse, r, hmem, hrest⟩⟩
    · exact Or.inr (Or.inl ⟨hef, l, hse, r, hmem, d, hd, hle⟩)
    · exact Or.inr (Or.inr (Or.inr ⟨hef, l, hse, r, hmem, ty, hty, hpt⟩))
  by_cases hemp : ss.isEmpty
  · rw [if_pos hemp] at h
    cases h
    have hss : ss = [] := List.isEmpty_iff.mp hemp
    have hl : l = [] := validateSessions_ok_nil l (hss ▸ hvs)
    exact Or.inr (Or.inr (Or.inl ⟨rfl, by rw [hse, hl]⟩))
  · rw [if_neg hemp] at h
    cases h

/-- C9: loading a malformed agenda — a session with zero/negative
duration, an empty session list, or a missing required field (at
agenda or session level) — yields a validation error identifying the
violating field (every returned error genuinely describes a violation
at the field it names, and a missing agenda-level required field
yields a missing-field error) and leaves the store's previously held
agenda unchanged; loading a valid agenda replaces the store's agenda
with the validated value in one assignment (and that value has a
nonempty session list with positive durations). -/
theorem C9_load_validation (mgr : AgendaManager) (raw : RawAgenda) :
    (∀ e, (loadFromDict mgr raw).2 = .error e →
      (loadFromDict mgr raw).1 = mgr)
    ∧ (∀ a, (loadFromDict mgr raw).2 = .ok a →
        (loadFromDict mgr raw).1.agenda = some a
        ∧ a.sessions ≠ [] ∧ ∀ s ∈ a.sessions, 0 < s.duration_minutes)
    ∧ ((∃ l, raw.sessions = some l
          ∧ ∃ r ∈ l, ∃ d, r.duration_minutes = some d ∧ d ≤ 0) →
        ∃ e, (loadFromDict mgr raw).2 = .error e)
    ∧ (raw.sessions = some [] →
        ∃ e, (loadFromDict mgr raw).2 = .error e)
    ∧ ((raw.id = none ∨ raw.title = none ∨ raw.date = none
          ∨ raw.venue = none ∨ raw.sessions = none) →
        ∃ f, (loadFromDict mgr raw).2 = .error (.missingField f))
    ∧ ((∃ l, raw.sessions = some l ∧ ∃ r ∈ l,
          (r.id = none ∨ r.type = none ∨ r.title = none
            ∨ r.duration_minutes = none)) →
        ∃ e, (loadFromDict mgr raw).2 = .error e)
    ∧ (∀ e, (loadFromDict mgr raw).2 = .error e →
        agendaErrSound raw e) := by
  have hmiss : (raw.id = none ∨ raw.title = none ∨ raw.date = none
        ∨ raw.venue = none ∨ raw.sessions = none) →
      ∃ f, validateAgenda raw = .error (.missingField f) := by
    intro h5
    rcases hid : raw.id with _ | idv
    · exact ⟨"id", by
        simp [validateAgenda, hid, require, Bind.bind, Except.bind]⟩
    rcases hti : raw.title with _ | tiv
    · exact ⟨"title", by
        simp [validateAgenda, hid, hti, require, Bind.bind, Except.bind]⟩
    rcases hda : raw.date with _ | dav
    · exact ⟨"date", by
        simp [validateAgenda, hid, hti, hda, require, Bind.bind, Except.bind]⟩
    rcases hve : raw.venue with _ | vev
    · exact ⟨"venue", by
        simp [validateAgenda, hid, hti, hda, hve, require, Bind.bind,
              Except.bind]⟩
    rcases hse : raw.sessions with _ | l
    · exact ⟨"sessions", by
        simp [validateAgenda, hid, hti, hda, hve, hse, require, Bind.bind,
              Except.bind]⟩
    rcases h5 with h | h | h | h | h <;> simp_all
  have hsessmiss : (∃ l, raw.sessions = some l ∧ ∃ r ∈ l,
        (r.id = none ∨ r.type = none ∨ r.title = none
          ∨ r.duration_minutes = none)) →
      ∀ a, validateAgenda raw ≠ .ok a := by
    rintro ⟨l, hsl, r, hmem, hbad⟩ a hok
    obtain ⟨l0, hsl0, hvs, -⟩ := validateAgenda_ok raw a hok
    rw [hsl0] at hsl
    cases hsl
    obtain ⟨s, hs⟩ := validateSessions_ok_each l a.sessions hvs r hmem
    obtain ⟨p1, p2, p3, p4⟩ := validateSession_ok_presence r s hs
    rcases hbad with hb | hb | hb | hb
    · exact p1 hb
    · exact p2 hb
    · exact p3 hb
    · exact p4 hb
  rcases hva : validateAgenda raw with e0 | a0
  · have hl : loadFromDict mgr raw = (mgr, .error e0) := by
      simp [loadFromDict, hva]
    rw [hl]
    refine ⟨fun _ _ => rfl, ?_, fun _ => ⟨e0, rfl⟩, fun _ => ⟨e0, rfl⟩,
      ?_, fun _ => ⟨e0, rfl⟩, ?_⟩
    · intro a h
      simp at h
    · intro h5
      obtain ⟨f, hf⟩ := hmiss h5
      rw [hva] at hf
      injection hf with hf'
      exact ⟨f, by rw [hf']⟩
    · intro e h
      cases h
      exact validateAgenda_error raw _ hva
  · have hl : loadFromDict mgr raw = (⟨some a0⟩, .ok a0) := by
      simp [loadFromDict, hva]
    rw [hl]
    obtain ⟨l0, hsl0, hvs, hne⟩ := validateAgenda_ok raw a0 hva
    refine ⟨fun e h => by simp at h, ?_, ?_, ?_, ?_, ?_, ?_⟩
    · intro a h
      simp only [Except.ok.injEq] at h
      subst h
      exact ⟨rfl, hne, (validateSessions_ok l0 a0.sessions hvs).1⟩
    · rintro ⟨l, hsl, r, hr, d, hd, hle⟩
      rw [hsl0] at hsl
      cases hsl
      exact absurd ((validateSessions_ok l0 a0.sessions hvs).2 r hr d hd)
        (not_lt.mpr hle)
    · intro hsl
      rw [hsl0] at hsl
      cases hsl
      simp only [validateSessions, Except.ok.injEq] at hvs
      exact absurd hvs.symm hne
    · intro h5
      obtain ⟨f, hf⟩ := hmiss h5
      rw [hva] at hf
      cases hf
    · intro h6
      exact absurd hva (hsessmiss h6 a0)
    · intro e h
      simp at h

/-- Raw session with a zero duration (pydantic `gt=0` violation). -/
def badSession : RawSession :=
  { id := some "s1", type := some "talk", title := some "T",
    duration_minutes := some 0 }

/-- Raw agenda whose only session has a zero duration. -/
def badRaw : RawAgenda :=
  { id := some "a", title := some "t", date := some "d",
    venue := some "v", sessions := some [badSession] }

/-- Raw agenda with one valid talk session. -/
def goodRaw : RawAgenda :=
  { id := some "a", title := some "t", date := some "d",
    venue := some "v",
    sessions := some [ { id := some "s1", type := some "talk",
                         title := some "T",
                         duration_minutes := some 5 } ] }

/-- The validated value `goodRaw` loads to. -/
def goodAgendaVal : ConferenceAgenda :=
  { id := "a", title := "t", date := "d", venue := "v",
    sessions := [ { id := "s1", type := .talk, title := "T",
                    duration_minutes := 5 } ] }

/-- Raw agenda missing its required venue field. -/
def noVenueRaw : RawAgenda :=
  { id := some "a", title := some "t", date := some "d", venue := none,
    sessions := some [ { id := some "s1", type := some "talk",
                         title := some "T",
                         duration_minutes := some 5 } ] }

/-- Raw session missing its required id field. -/
def noIdSession : RawSession :=
  { type := some "talk", title := some "T", duration_minutes := some 5 }

/-- Raw agenda whose only session is missing its required id field. -/
def noIdSessionRaw : RawAgenda :=
  { id := some "a", title := some "t", date := some "d",
    venue := some "v", sessions := some [noIdSession] }

/-- C9 witness: the zero-duration agenda fails to load and leaves an
empty store untouched; the valid agenda replaces the store's agenda
with its validated, nonempty value; the agenda missing its venue
yields a missing-field error, the agenda whose session is missing its
id yields a validation error, and the error the zero-duration agenda
yields genuinely describes the duration violation. -/
theorem C9_load_validation_witness :
    (∃ e, (loadFromDict ⟨none⟩ badRaw).2 = .error e)
    ∧ (loadFromDict ⟨none⟩ badRaw).1 = ⟨none⟩
    ∧ (loadFromDict ⟨none⟩ goodRaw).1.agenda = some goodAgendaVal
    ∧ goodAgendaVal.sessions ≠ []
    ∧ (∃ f, (loadFromDict ⟨none⟩ noVenueRaw).2 = .error (.missingField f))
    ∧ (∃ e, (loadFromDict ⟨none⟩ noIdSessionRaw).2 = .error e)
    ∧ agendaErrSound badRaw (ValErr.notGreaterThanZero "duration_minutes") :=
  ⟨(C9_load_validation ⟨none⟩ badRaw).2.2.1
      ⟨[badSession], rfl, badSession, by simp, 0, rfl, le_refl 0⟩,
   (C9_load_validation ⟨none⟩ badRaw).1
      (.notGreaterThanZero "duration_minutes") rfl,
   ((C9_load_validation ⟨none⟩ goodRaw).2.1 goodAgendaVal rfl).1,
   ((C9_load_validation ⟨none⟩ goodRaw).2.1 goodAgendaVal rfl).2.1,
   (C9_load_validation ⟨none⟩ noVenueRaw).2.2.2.2.1
      (Or.inr (Or.inr (Or.inr (Or.inl rfl)))),
   (C9_load_validation ⟨none⟩ noIdSessionRaw).2.2.2.2.2.1
      ⟨[noIdSession], rfl, noIdSession, by simp, Or.inl rfl⟩,
   (C9_load_validation ⟨none⟩ badRaw).2.2.2.2.2.2
      (ValErr.notGreaterThanZero "duration_minutes") rfl⟩

end LiveModerator
